import Mathlib

/-!
Shallow embedding of the draft coordination engine of `src/server.js`
(the socket handlers `assign-team`, `start-draft`, `draft-pick`,
`disconnect` and the league record created by `POST /leagues`).

JavaScript numbers used as indices are modelled as `Int` (the pick and
claim handlers never range-check them); player identifiers cross the
transport boundary either as numbers or as strings, so they are modelled
by the sum type `JsId`, and the canonical comparison `String(p.id)`
performed by the pick handler is `canonId`.
-/

/-- A player identifier as it arrives over the wire: either a JSON number
or a JSON string (`player.id` in `server.js`). -/
inductive JsId where
  | num : Int → JsId
  | str : String → JsId
deriving DecidableEq

/-- The canonical representation used by the pick handler:
`String(p.id)` in `server.js`. -/
def canonId : JsId → String
  | JsId.num n => toString n
  | JsId.str s => s

/-- A player record as produced by `fetchPlayers` in `server.js`:
`id`, `name` and two rank fields that the engine never inspects. -/
structure Player where
  id : JsId
  name : String
  owgr_rank : Int
  dg_rank : Int
deriving DecidableEq

/-- The league draft record stored in `leagues.json` (the object built by
`POST /leagues` in `server.js`). `teamOwners` is the JS object mapping a
team index to the owning socket id, modelled as an association list with
unique keys. -/
structure League where
  teamNames : List String
  teams : List (List Player)
  availablePlayers : List Player
  currentTeamIndex : Int
  snakeDirection : Int
  isDrafting : Bool
  draftComplete : Bool
  teamOwners : List (Int × String)
deriving DecidableEq

/-- Property lookup `league.teamOwners[teamIndex]` (absent key gives
`undefined`, modelled as `none`). -/
def lookupOwner : List (Int × String) → Int → Option String
  | [], _ => none
  | (j, s) :: rest, i => if j = i then some s else lookupOwner rest i

/-- Property assignment `league.teamOwners[teamIndex] = socket.id`:
replaces the entry for the key when present, otherwise appends it. -/
def setOwner : List (Int × String) → Int → String → List (Int × String)
  | [], i, sid => [(i, sid)]
  | (j, s) :: rest, i, sid =>
      if j = i then (i, sid) :: rest else (j, s) :: setOwner rest i sid

/-- The `disconnect` loop that deletes every `teamOwners` entry whose
value is the disconnecting socket id. -/
def removeSession (owners : List (Int × String)) (sid : String) : List (Int × String) :=
  owners.filter (fun e => e.2 != sid)

/-- The availability test of the pick handler:
`league.availablePlayers.some(p => String(p.id) === String(player.id))`. -/
def playerAvailable (ps : List Player) (pid : JsId) : Bool :=
  ps.any (fun p => canonId p.id == canonId pid)

/-- The snake-order turn advance of the pick handler: `nextTeamIndex =
currentTeamIndex + snakeDirection`, clamped and reflected at both ends
against `teamNames.length`. Returns the new
`(currentTeamIndex, snakeDirection)`. -/
def advanceTurn (idx dir : Int) (teamCount : Nat) : Int × Int :=
  if idx + dir ≥ (teamCount : Int) then ((teamCount : Int) - 1, -1)
  else if idx + dir < 0 then (0, 1)
  else (idx + dir, dir)

/-- The state mutation of an accepted pick: push the player onto
`teams[teamIndex]`, filter the player's canonical id out of
`availablePlayers`, advance the turn, and recompute `draftComplete` from
the mutated teams (`teams.every(t => t.length === 6)`). -/
def pickUpdate (l : League) (teamIndex : Int) (player : Player) : League :=
  { l with
    teams := l.teams.set teamIndex.toNat (l.teams.getD teamIndex.toNat [] ++ [player]),
    availablePlayers :=
      l.availablePlayers.filter (fun p => canonId p.id != canonId player.id),
    currentTeamIndex :=
      (advanceTurn l.currentTeamIndex l.snakeDirection l.teamNames.length).1,
    snakeDirection :=
      (advanceTurn l.currentTeamIndex l.snakeDirection l.teamNames.length).2,
    draftComplete :=
      (l.teams.set teamIndex.toNat (l.teams.getD teamIndex.toNat [] ++ [player])).all
        (fun t => t.length == 6) }

/-- Outcome of the `draft-pick` handler. `rejected` is a silent early
return (no state change, no broadcast); `typeError` is the runtime error
thrown by `league.teams[teamIndex].push(player)` when `teams[teamIndex]`
is `undefined` (it aborts the handler before any write or broadcast);
`accepted` carries the persisted new league state, followed by a
`draft-update` broadcast. -/
inductive PickResult where
  | rejected : PickResult
  | typeError : PickResult
  | accepted : League → PickResult
deriving DecidableEq

/-- The `draft-pick` handler of `server.js`, per league. Guards in source
order: league must be drafting and not complete; the socket must be the
recorded owner of `teamIndex`; the player must be available under
canonical id comparison; then `teams[teamIndex].push` requires the index
to be in bounds, else the handler dies with a `TypeError`. -/
def draftPick (l : League) (sid : String) (teamIndex : Int) (player : Player) : PickResult :=
  if !l.isDrafting || l.draftComplete then PickResult.rejected
  else if lookupOwner l.teamOwners teamIndex ≠ some sid then PickResult.rejected
  else if !playerAvailable l.availablePlayers player.id then PickResult.rejected
  else if 0 ≤ teamIndex ∧ teamIndex < (l.teams.length : Int) then
    PickResult.accepted (pickUpdate l teamIndex player)
  else PickResult.typeError

/-- The league state after the pick handler returns: only an accepted
pick persists a new state. -/
def pickState (l : League) : PickResult → League
  | PickResult.accepted l' => l'
  | _ => l

/-- Whether the pick handler emitted the `draft-update` broadcast. -/
def pickBroadcast : PickResult → Bool
  | PickResult.accepted _ => true
  | _ => false

/-- Outcome of the `assign-team` handler: success (with the new league
state and the echoed team index), rejection because the draft is
complete, or rejection because another socket owns the slot. -/
inductive AssignResult where
  | assigned : League → Int → AssignResult
  | completeRejected : AssignResult
  | taken : AssignResult
deriving DecidableEq

/-- The `assign-team` handler of `server.js`, per league: rejects when
`draftComplete`; assigns when the slot is unclaimed or already claimed by
the same socket; otherwise reports the slot as taken. No range check on
`teamIndex`. -/
def assignTeam (l : League) (sid : String) (teamIndex : Int) : AssignResult :=
  if l.draftComplete then AssignResult.completeRejected
  else
    match lookupOwner l.teamOwners teamIndex with
    | none =>
        AssignResult.assigned
          { l with teamOwners := setOwner l.teamOwners teamIndex sid } teamIndex
    | some s =>
        if s = sid then
          AssignResult.assigned
            { l with teamOwners := setOwner l.teamOwners teamIndex sid } teamIndex
        else AssignResult.taken

/-- The league state after the assign handler: only a successful claim
writes a new state. -/
def assignState (l : League) : AssignResult → League
  | AssignResult.assigned l' _ => l'
  | _ => l

/-- The `start-draft` handler of `server.js`, per league: early return if
already drafting; otherwise set the drafting flags, reset the turn, and
re-initialize every team to empty. It touches neither
`availablePlayers` nor `teamOwners`. -/
def startDraft (l : League) : League :=
  if l.isDrafting then l
  else
    { l with
      isDrafting := true,
      currentTeamIndex := 0,
      snakeDirection := 1,
      draftComplete := false,
      teams := List.replicate l.teamNames.length [] }

/-- Whether `start-draft` emitted its `draft-update` broadcast (the
early return on an already-drafting league emits nothing). -/
def startBroadcast (l : League) : Bool := !l.isDrafting

/-- The per-league effect of the `disconnect` handler: delete every
`teamOwners` entry held by the disconnecting socket. -/
def disconnectLeague (l : League) (sid : String) : League :=
  { l with teamOwners := removeSession l.teamOwners sid }

/-- The `disconnect` handler over the whole store: it iterates every
league in `leagues.json`. -/
def disconnectAll (ls : List League) (sid : String) : List League :=
  ls.map (fun l => disconnectLeague l sid)

/-- The league record built by `POST /leagues` when the request body
carries no explicit `teams` array. -/
def createLeague (teamNames : List String) (avail : List Player) : League :=
  { teamNames := teamNames,
    teams := List.replicate teamNames.length [],
    availablePlayers := avail,
    currentTeamIndex := 0,
    snakeDirection := 1,
    isDrafting := false,
    draftComplete := false,
    teamOwners := [] }

/-- Total number of player entries held by a league: the drafted ones
plus the available ones. -/
def totalCount (l : League) : Nat :=
  (l.teams.map List.length).sum + l.availablePlayers.length

/-- One accepted pick, as a step relation between league states. -/
inductive PickStep : League → League → Prop where
  | step : ∀ (l : League) (sid : String) (ti : Int) (p : Player) (l' : League),
      draftPick l sid ti p = PickResult.accepted l' → PickStep l l'

/-- Run a sequence of picks, each issued at the league's current team
index by the given socket; record the team index at which each pick
lands, failing if any pick is not accepted. -/
def runSelfPicks (l : League) (sid : String) : List Player → Option (List Int)
  | [] => some []
  | p :: ps =>
      match draftPick l sid l.currentTeamIndex p with
      | PickResult.accepted l' =>
          (runSelfPicks l' sid ps).map (fun is => l.currentTeamIndex :: is)
      | _ => none

/-- A concrete player with a numeric wire id, as `fetchPlayers` builds
them. -/
def mkPlayer (n : Int) : Player :=
  { id := JsId.num n, name := "p", owgr_rank := n, dg_rank := n }

/-- A four-team league mid-draft, all slots owned by socket `s`. -/
def lgA : League :=
  { teamNames := ["A", "B", "C", "D"],
    teams := [[], [], [], []],
    availablePlayers := (List.range 10).map (fun n => mkPlayer n),
    currentTeamIndex := 0,
    snakeDirection := 1,
    isDrafting := true,
    draftComplete := false,
    teamOwners := [(0, "s"), (1, "s"), (2, "s"), (3, "s")] }

/-- A two-team league mid-draft, all slots owned by socket `s`. -/
def lgB : League :=
  { teamNames := ["A", "B"],
    teams := [[], []],
    availablePlayers := (List.range 6).map (fun n => mkPlayer n),
    currentTeamIndex := 0,
    snakeDirection := 1,
    isDrafting := true,
    draftComplete := false,
    teamOwners := [(0, "s"), (1, "s")] }

/-- A drafting league where socket `s` owns slot 0. -/
def lgC1 : League :=
  { teamNames := ["A", "B"],
    teams := [[], []],
    availablePlayers := [mkPlayer 1],
    currentTeamIndex := 0,
    snakeDirection := 1,
    isDrafting := true,
    draftComplete := false,
    teamOwners := [(0, "s")] }

/-- A seeded two-team league mid-draft (distinct player ids). -/
def lgC3 : League :=
  { teamNames := ["A", "B"],
    teams := [[], []],
    availablePlayers := (List.range 6).map (fun n => mkPlayer n),
    currentTeamIndex := 0,
    snakeDirection := 1,
    isDrafting := true,
    draftComplete := false,
    teamOwners := [(0, "s"), (1, "s")] }

/-- A league with zero team slots, as `POST /leagues` builds for an empty
`teamNames`. -/
def lgC4z : League :=
  { teamNames := [],
    teams := [],
    availablePlayers := [],
    currentTeamIndex := 0,
    snakeDirection := 1,
    isDrafting := false,
    draftComplete := false,
    teamOwners := [] }

/-- A league whose draft has completed. -/
def lgC4c : League :=
  { teamNames := ["A"],
    teams := [List.replicate 6 (mkPlayer 9)],
    availablePlayers := [],
    currentTeamIndex := 0,
    snakeDirection := 1,
    isDrafting := true,
    draftComplete := true,
    teamOwners := [(0, "s")] }

/-- A not-yet-started league with no slot claimed. -/
def lgC5 : League :=
  { teamNames := ["A", "B"],
    teams := [[], []],
    availablePlayers := [mkPlayer 1],
    currentTeamIndex := 0,
    snakeDirection := 1,
    isDrafting := false,
    draftComplete := false,
    teamOwners := [] }

/-- `lgC5` after socket `a` claims slot 0. -/
def lgC5a : League :=
  { lgC5 with teamOwners := [(0, "a")] }

/-- A not-yet-started league with an empty player pool. -/
def lgC6 : League :=
  { teamNames := ["A"],
    teams := [[]],
    availablePlayers := [],
    currentTeamIndex := 0,
    snakeDirection := 1,
    isDrafting := false,
    draftComplete := false,
    teamOwners := [] }

/-- A not-yet-started league where socket `s` owns slot 0. -/
def lgC7 : League :=
  { teamNames := ["A", "B"],
    teams := [[], []],
    availablePlayers := [mkPlayer 1],
    currentTeamIndex := 0,
    snakeDirection := 1,
    isDrafting := false,
    draftComplete := false,
    teamOwners := [(0, "s")] }

/-- A completed league whose slot 0 is owned by socket `s`. -/
def lgC8 : League :=
  { teamNames := ["A"],
    teams := [List.replicate 6 (mkPlayer 9)],
    availablePlayers := [],
    currentTeamIndex := 0,
    snakeDirection := 1,
    isDrafting := true,
    draftComplete := true,
    teamOwners := [(0, "s")] }

/-- A drafting league where it is team 0's turn but socket `s` owns
slot 1. -/
def lgC9 : League :=
  { teamNames := ["A", "B"],
    teams := [[], []],
    availablePlayers := [mkPlayer 1],
    currentTeamIndex := 0,
    snakeDirection := 1,
    isDrafting := true,
    draftComplete := false,
    teamOwners := [(1, "s")] }

/-- A drafting two-team league with no slot claimed. -/
def lgC10 : League :=
  { teamNames := ["A", "B"],
    teams := [[], []],
    availablePlayers := [mkPlayer 1],
    currentTeamIndex := 0,
    snakeDirection := 1,
    isDrafting := true,
    draftComplete := false,
    teamOwners := [] }

/-- `lgC10` after socket `s` claims the out-of-range slot 5. -/
def lgC10b : League :=
  { lgC10 with teamOwners := [(5, "s")] }

theorem pick_rejected_of_not_drafting (l : League) (sid : String) (ti : Int) (p : Player)
    (h : l.isDrafting = false) : draftPick l sid ti p = PickResult.rejected := by
  simp [draftPick, h]

theorem pick_rejected_of_complete (l : League) (sid : String) (ti : Int) (p : Player)
    (h : l.draftComplete = true) : draftPick l sid ti p = PickResult.rejected := by
  simp [draftPick, h]

theorem pick_rejected_of_not_owner (l : League) (sid : String) (ti : Int) (p : Player)
    (h : lookupOwner l.teamOwners ti ≠ some sid) :
    draftPick l sid ti p = PickResult.rejected := by
  by_cases h1 : (!l.isDrafting || l.draftComplete) = true
  · simp [draftPick, h1]
  · simp only [Bool.or_eq_true, Bool.not_eq_true', not_or, Bool.not_eq_true] at h1
    simp [draftPick, h1.1, h1.2, h]

theorem pick_rejected_of_unavailable (l : League) (sid : String) (ti : Int) (p : Player)
    (h : playerAvailable l.availablePlayers p.id = false) :
    draftPick l sid ti p = PickResult.rejected := by
  by_cases h1 : (!l.isDrafting || l.draftComplete) = true
  · simp [draftPick, h1]
  · simp only [Bool.or_eq_true, Bool.not_eq_true', not_or, Bool.not_eq_true] at h1
    by_cases h2 : lookupOwner l.teamOwners ti = some sid
    · simp [draftPick, h1.1, h1.2, h2, h]
    · simp [draftPick, h1.1, h1.2, h2]

theorem pick_accepted_eq (l : League) (sid : String) (ti : Int) (p : Player)
    (h1 : l.isDrafting = true) (h2 : l.draftComplete = false)
    (h3 : lookupOwner l.teamOwners ti = some sid)
    (h4 : playerAvailable l.availablePlayers p.id = true)
    (h5 : 0 ≤ ti) (h6 : ti < (l.teams.length : Int)) :
    draftPick l sid ti p = PickResult.accepted (pickUpdate l ti p) := by
  simp [draftPick, h1, h2, h3, h4, h5, h6]

theorem pick_typeError_eq (l : League) (sid : String) (ti : Int) (p : Player)
    (h1 : l.isDrafting = true) (h2 : l.draftComplete = false)
    (h3 : lookupOwner l.teamOwners ti = some sid)
    (h4 : playerAvailable l.availablePlayers p.id = true)
    (h5 : ti < 0 ∨ (l.teams.length : Int) ≤ ti) :
    draftPick l sid ti p = PickResult.typeError := by
  have h6 : ¬(0 ≤ ti ∧ ti < (l.teams.length : Int)) := by omega
  simp [draftPick, h1, h2, h3, h4, h6]

theorem pick_accepted_inv (l : League) (sid : String) (ti : Int) (p : Player) (l' : League)
    (h : draftPick l sid ti p = PickResult.accepted l') :
    l' = pickUpdate l ti p ∧ l.isDrafting = true ∧ l.draftComplete = false ∧
      lookupOwner l.teamOwners ti = some sid ∧
      playerAvailable l.availablePlayers p.id = true ∧
      0 ≤ ti ∧ ti < (l.teams.length : Int) := by
  unfold draftPick at h
  split_ifs at h with h1 h2 h3 h4
  · injection h with h'
    simp only [Bool.or_eq_true, Bool.not_eq_true', not_or, Bool.not_eq_true,
      Bool.not_eq_false] at h1
    simp only [Bool.not_eq_true', ne_eq, not_not, Bool.not_eq_false] at h2 h3
    exact ⟨h'.symm, h1.1, h1.2, h2, h3, h4.1, h4.2⟩

theorem playerAvailable_false_iff (ps : List Player) (pid : JsId) :
    playerAvailable ps pid = false ↔ ∀ q ∈ ps, canonId q.id ≠ canonId pid := by
  simp [playerAvailable, List.any_eq_false]

theorem playerAvailable_true_iff (ps : List Player) (pid : JsId) :
    playerAvailable ps pid = true ↔ ∃ q ∈ ps, canonId q.id = canonId pid := by
  simp [playerAvailable, List.any_eq_true]

theorem sumLens_set_append (p : Player) :
    ∀ (ts : List (List Player)) (i : Nat), i < ts.length →
      ((ts.set i (ts.getD i [] ++ [p])).map List.length).sum
        = (ts.map List.length).sum + 1 := by
  intro ts
  induction ts with
  | nil => intro i h; simp at h
  | cons hd tl ih =>
    intro i h
    cases i with
    | zero => simp [List.getD]; omega
    | succ n =>
      simp only [List.set, List.getD_cons_succ, List.map_cons, List.sum_cons]
      rw [ih n (by simpa using h)]
      omega

theorem filter_canon_keep_all (c : String) :
    ∀ (ps : List Player), (∀ q ∈ ps, canonId q.id ≠ c) →
      ps.filter (fun p => canonId p.id != c) = ps := by
  intro ps
  induction ps with
  | nil => intro _; rfl
  | cons hd tl ih =>
    intro h
    have hhd : canonId hd.id ≠ c := h hd (List.mem_cons_self hd tl)
    simp only [List.filter_cons, bne_iff_ne, ne_eq, hhd, not_false_eq_true, if_pos]
    rw [ih (fun q hq => h q (List.mem_cons_of_mem hd hq))]

theorem filter_canon_length (c : String) :
    ∀ (ps : List Player),
      ((ps.map (fun p => canonId p.id)).Nodup) →
      (∃ q ∈ ps, canonId q.id = c) →
      (ps.filter (fun p => canonId p.id != c)).length + 1 = ps.length := by
  intro ps
  induction ps with
  | nil => intro _ hm; simp at hm
  | cons hd tl ih =>
    intro hn hm
    simp only [List.map_cons, List.nodup_cons] at hn
    by_cases hc : canonId hd.id = c
    · have htl : ∀ q ∈ tl, canonId q.id ≠ c := by
        intro q hq hqc
        exact hn.1 (hc ▸ hqc ▸ List.mem_map_of_mem (fun p => canonId p.id) hq)
      simp only [List.filter_cons, bne_iff_ne, ne_eq, hc, not_true_eq_false, if_neg,
        not_not, if_false]
      rw [filter_canon_keep_all c tl htl]
      simp
    · obtain ⟨q, hq, hqc⟩ := hm
      rcases List.mem_cons.1 hq with rfl | hq'
      · exact absurd hqc hc
      · simp only [List.filter_cons, bne_iff_ne, ne_eq, hc, not_false_eq_true, if_pos,
          List.length_cons]
        rw [← ih hn.2 ⟨q, hq', hqc⟩]

theorem pick_step_count (l : League) (sid : String) (ti : Int) (p : Player) (l' : League)
    (h : draftPick l sid ti p = PickResult.accepted l')
    (hn : (l.availablePlayers.map (fun q => canonId q.id)).Nodup) :
    totalCount l' = totalCount l ∧
      (l'.availablePlayers.map (fun q => canonId q.id)).Nodup := by
  obtain ⟨hl', _, _, _, hav, h0, hlen⟩ := pick_accepted_inv l sid ti p l' h
  subst hl'
  constructor
  · have hib : ti.toNat < l.teams.length := by omega
    have h1 := sumLens_set_append p l.teams ti.toNat hib
    have hex : ∃ q ∈ l.availablePlayers, canonId q.id = canonId p.id :=
      (playerAvailable_true_iff l.availablePlayers p.id).1 hav
    have h2 := filter_canon_length (canonId p.id) l.availablePlayers hn hex
    simp only [totalCount, pickUpdate]
    omega
  · simp only [pickUpdate]
    exact hn.sublist ((List.filter_sublist _).map _)

theorem lookupOwner_setOwner_self :
    ∀ (ow : List (Int × String)) (i : Int) (sid : String),
      lookupOwner (setOwner ow i sid) i = some sid := by
  intro ow
  induction ow with
  | nil => intro i sid; simp [setOwner, lookupOwner]
  | cons hd tl ih =>
    intro i sid
    obtain ⟨j, s⟩ := hd
    by_cases hj : j = i
    · simp [setOwner, hj, lookupOwner]
    · simp [setOwner, hj, lookupOwner, ih]

theorem lookupOwner_removeSession (sid : String) (i : Int) :
    ∀ ow : List (Int × String), lookupOwner (removeSession ow sid) i ≠ some sid := by
  intro ow
  induction ow with
  | nil => simp [removeSession, lookupOwner]
  | cons hd tl ih =>
    obtain ⟨j, s⟩ := hd
    by_cases hs : s = sid
    · simpa [removeSession, List.filter_cons, hs] using ih
    · by_cases hj : j = i
      · simp [removeSession, List.filter_cons, hs, lookupOwner, hj]
      · simpa [removeSession, List.filter_cons, hs, lookupOwner, hj] using ih

/-- C1: a pick issued while the league is not drafting, or after the
draft is complete, or by a socket that is not the recorded owner of the
slot, or for a player whose canonical id matches no entry of
`availablePlayers`, is a silent no-op: the handler returns `rejected`,
the league state is unchanged, and no `draft-update` broadcast is
emitted. -/
theorem c1_rejected_pick_is_silent_noop (l : League) (sid : String) (ti : Int) (p : Player)
    (h : l.isDrafting = false ∨ l.draftComplete = true ∨
      lookupOwner l.teamOwners ti ≠ some sid ∨
      ∀ q ∈ l.availablePlayers, canonId q.id ≠ canonId p.id) :
    draftPick l sid ti p = PickResult.rejected ∧
      pickState l (draftPick l sid ti p) = l ∧
      pickBroadcast (draftPick l sid ti p) = false := by
  have hr : draftPick l sid ti p = PickResult.rejected := by
    rcases h with h | h | h | h
    · exact pick_rejected_of_not_drafting l sid ti p h
    · exact pick_rejected_of_complete l sid ti p h
    · exact pick_rejected_of_not_owner l sid ti p h
    · exact pick_rejected_of_unavailable l sid ti p
        ((playerAvailable_false_iff l.availablePlayers p.id).2 h)
  exact ⟨hr, by rw [hr]; rfl, by rw [hr]; rfl⟩

/-- C1 witness: a pick by socket `x`, which does not own slot 0 of
`lgC1`, is rejected with no state change and no broadcast. -/
theorem c1_witness :
    draftPick lgC1 "x" 0 (mkPlayer 1) = PickResult.rejected ∧
      pickState lgC1 (draftPick lgC1 "x" 0 (mkPlayer 1)) = lgC1 ∧
      pickBroadcast (draftPick lgC1 "x" 0 (mkPlayer 1)) = false :=
  c1_rejected_pick_is_silent_noop lgC1 "x" 0 (mkPlayer 1)
    (Or.inr (Or.inr (Or.inl (by decide))))

/-- C2: every accepted pick advances the turn by the snake rule
(`next = currentTeamIndex + snakeDirection`, clamped to
`teamCount - 1` flipping the direction to `-1` when `next >= teamCount`,
clamped to `0` flipping to `+1` when `next < 0`), and from
`(currentTeamIndex = 0, snakeDirection = +1)` successive accepted picks
land at team indices 0,1,2,3,3,2,1,0,0,1 for four teams and at
0,1,1,0,0,1 for the first six picks with two teams. -/
theorem c2_snake_turn_advance :
    (∀ (l : League) (sid : String) (ti : Int) (p : Player) (l' : League),
      draftPick l sid ti p = PickResult.accepted l' →
        l'.currentTeamIndex =
          (if l.currentTeamIndex + l.snakeDirection ≥ (l.teamNames.length : Int) then
            (l.teamNames.length : Int) - 1
          else if l.currentTeamIndex + l.snakeDirection < 0 then 0
          else l.currentTeamIndex + l.snakeDirection) ∧
        l'.snakeDirection =
          (if l.currentTeamIndex + l.snakeDirection ≥ (l.teamNames.length : Int) then -1
          else if l.currentTeamIndex + l.snakeDirection < 0 then 1
          else l.snakeDirection)) ∧
    runSelfPicks lgA "s" ((List.range 10).map (fun n => mkPlayer n))
      = some [0, 1, 2, 3, 3, 2, 1, 0, 0, 1] ∧
    runSelfPicks lgB "s" ((List.range 6).map (fun n => mkPlayer n))
      = some [0, 1, 1, 0, 0, 1] := by
  refine ⟨?_, by decide, by decide⟩
  intro l sid ti p l' h
  obtain ⟨hl', -, -, -, -, -, -⟩ := pick_accepted_inv l sid ti p l' h
  subst hl'
  constructor
  · simp only [pickUpdate, advanceTurn]
    split_ifs <;> rfl
  · simp only [pickUpdate, advanceTurn]
    split_ifs <;> rfl

/-- C2 witness: the accepted first pick of the two-team league `lgB`
advances the turn exactly as the snake rule computes it. -/
theorem c2_witness :
    (pickUpdate lgB 0 (mkPlayer 0)).currentTeamIndex =
      (if lgB.currentTeamIndex + lgB.snakeDirection ≥ (lgB.teamNames.length : Int) then
        (lgB.teamNames.length : Int) - 1
      else if lgB.currentTeamIndex + lgB.snakeDirection < 0 then 0
      else lgB.currentTeamIndex + lgB.snakeDirection) ∧
    (pickUpdate lgB 0 (mkPlayer 0)).snakeDirection =
      (if lgB.currentTeamIndex + lgB.snakeDirection ≥ (lgB.teamNames.length : Int) then -1
      else if lgB.currentTeamIndex + lgB.snakeDirection < 0 then 1
      else lgB.snakeDirection) :=
  c2_snake_turn_advance.1 lgB "s" 0 (mkPlayer 0) (pickUpdate lgB 0 (mkPlayer 0)) (by decide)

/-- C3: once the pool is seeded with pairwise-distinct canonical player
ids, every sequence of accepted picks preserves the total player count:
the drafted players plus the remaining available players always sum to
the seeded total (each accepted pick appends exactly one player to a
team and removes exactly that player from the pool), and distinctness of
the remaining canonical ids is preserved. -/
theorem c3_player_conservation (l l' : League)
    (h : Relation.ReflTransGen PickStep l l')
    (hn : (l.availablePlayers.map (fun q => canonId q.id)).Nodup) :
    totalCount l' = totalCount l ∧
      (l'.availablePlayers.map (fun q => canonId q.id)).Nodup := by
  induction h with
  | refl => exact ⟨rfl, hn⟩
  | tail _ hbc ih =>
    obtain ⟨i1, i2⟩ := ih
    cases hbc with
    | step sid ti p a he =>
      obtain ⟨j1, j2⟩ := pick_step_count _ sid ti p _ he i2
      exact ⟨j1.trans i1, j2⟩

/-- C3 witness: one accepted pick on the seeded league `lgC3` keeps the
total player count and the distinctness of the remaining ids. -/
theorem c3_witness :
    totalCount (pickUpdate lgC3 0 (mkPlayer 0)) = totalCount lgC3 ∧
      ((pickUpdate lgC3 0 (mkPlayer 0)).availablePlayers.map
        (fun q => canonId q.id)).Nodup :=
  c3_player_conservation lgC3 (pickUpdate lgC3 0 (mkPlayer 0))
    (Relation.ReflTransGen.single
      (PickStep.step lgC3 "s" 0 (mkPlayer 0) (pickUpdate lgC3 0 (mkPlayer 0)) (by decide)))
    (by decide)

/-- C4 counterexample: on the zero-team league `lgC4z` the `start-draft`
transition leaves `draftComplete = false` while every team (vacuously)
has length 6, so the claimed biconditional fails after this
transition. -/
theorem c4_zero_team_counterexample :
    (startDraft lgC4z).draftComplete = false ∧
      (startDraft lgC4z).teams = [] ∧
      ((startDraft lgC4z).teams.all (fun t => t.length == 6)) = true := by
  exact ⟨by decide, by decide, by decide⟩

/-- C4 (amended to leagues with at least one team slot): an accepted pick
recomputes `draftComplete` so that it is true exactly when every team has
length 6; after creation and after `start-draft` on a league with a
nonempty `teamNames` the biconditional holds as well; once
`draftComplete` is true every further pick is rejected; and the
`assign-team` and `disconnect` transitions change neither `teams` nor
`draftComplete`. -/
theorem c4_complete_iff_full :
    (∀ (l : League) (sid : String) (ti : Int) (p : Player) (l' : League),
      draftPick l sid ti p = PickResult.accepted l' →
        (l'.draftComplete = true ↔ ∀ t ∈ l'.teams, t.length = 6)) ∧
    (∀ (names : List String) (avail : List Player), names ≠ [] →
      ((createLeague names avail).draftComplete = true ↔
        ∀ t ∈ (createLeague names avail).teams, t.length = 6)) ∧
    (∀ l : League, l.isDrafting = false → l.teamNames ≠ [] →
      ((startDraft l).draftComplete = true ↔
        ∀ t ∈ (startDraft l).teams, t.length = 6)) ∧
    (∀ (l : League) (sid : String) (ti : Int) (p : Player),
      l.draftComplete = true → draftPick l sid ti p = PickResult.rejected) ∧
    (∀ (l : League) (sid : String) (i : Int),
      (assignState l (assignTeam l sid i)).draftComplete = l.draftComplete ∧
      (assignState l (assignTeam l sid i)).teams = l.teams) ∧
    (∀ (l : League) (sid : String),
      (disconnectLeague l sid).draftComplete = l.draftComplete ∧
      (disconnectLeague l sid).teams = l.teams) := by
  refine ⟨?_, ?_, ?_, ?_, ?_, ?_⟩
  · intro l sid ti p l' h
    obtain ⟨hl', -, -, -, -, -, -⟩ := pick_accepted_inv l sid ti p l' h
    subst hl'
    simp only [pickUpdate, List.all_eq_true, beq_iff_eq]
  · intro names avail hne
    have hn0 : names.length ≠ 0 := fun h0 => hne (List.length_eq_zero.1 h0)
    simp only [createLeague, Bool.false_eq_true, false_iff]
    intro hall
    have := hall [] (List.mem_replicate.2 ⟨hn0, rfl⟩)
    simp at this
  · intro l h hne
    have hn0 : l.teamNames.length ≠ 0 := fun h0 => hne (List.length_eq_zero.1 h0)
    simp only [startDraft, h, Bool.false_eq_true, if_false, false_iff]
    intro hall
    have := hall [] (List.mem_replicate.2 ⟨hn0, rfl⟩)
    simp at this
  · intro l sid ti p h
    exact pick_rejected_of_complete l sid ti p h
  · intro l sid i
    by_cases hc : l.draftComplete = true
    · simp [assignTeam, hc, assignState]
    · rcases hl : lookupOwner l.teamOwners i with - | s
      · simp [assignTeam, hc, hl, assignState]
      · by_cases hs : s = sid
        · simp [assignTeam, hc, hl, hs, assignState]
        · simp [assignTeam, hc, hl, hs, assignState]
  · intro l sid
    exact ⟨rfl, rfl⟩

/-- C4 witness: on the completed league `lgC4c` a further pick is
rejected. -/
theorem c4_witness :
    draftPick lgC4c "s" 0 (mkPlayer 1) = PickResult.rejected :=
  c4_complete_iff_full.2.2.2.1 lgC4c "s" 0 (mkPlayer 1) rfl

/-- C5: `assign-team` succeeds, recording the socket as the owner,
exactly when the draft is not complete and the slot is unclaimed or
already claimed by the same socket; a claim on a slot held by a
different socket is rejected as taken; any claim on a completed league
is rejected; failed claims leave the league unchanged; and in the
concrete scenario socket `a` claims slot 0, socket `b` is then rejected,
and a re-claim by socket `a` succeeds and is idempotent. -/
theorem c5_claim_slot_contract :
    (∀ (l : League) (sid : String) (i : Int),
      l.draftComplete = false →
      (lookupOwner l.teamOwners i = none ∨ lookupOwner l.teamOwners i = some sid) →
      assignTeam l sid i =
        AssignResult.assigned { l with teamOwners := setOwner l.teamOwners i sid } i ∧
      lookupOwner (setOwner l.teamOwners i sid) i = some sid) ∧
    (∀ (l : League) (sid sid' : String) (i : Int),
      l.draftComplete = false → lookupOwner l.teamOwners i = some sid' → sid' ≠ sid →
      assignTeam l sid i = AssignResult.taken ∧
      assignState l (assignTeam l sid i) = l) ∧
    (∀ (l : League) (sid : String) (i : Int),
      l.draftComplete = true →
      assignTeam l sid i = AssignResult.completeRejected ∧
      assignState l (assignTeam l sid i) = l) ∧
    (assignTeam lgC5 "a" 0 = AssignResult.assigned lgC5a 0 ∧
      assignTeam lgC5a "b" 0 = AssignResult.taken ∧
      assignTeam lgC5a "a" 0 = AssignResult.assigned lgC5a 0) := by
  refine ⟨?_, ?_, ?_, by decide, by decide, by decide⟩
  · intro l sid i hc hl
    rcases hl with hl | hl
    · exact ⟨by simp [assignTeam, hc, hl], lookupOwner_setOwner_self l.teamOwners i sid⟩
    · exact ⟨by simp [assignTeam, hc, hl], lookupOwner_setOwner_self l.teamOwners i sid⟩
  · intro l sid sid' i hc hl hne
    have he : assignTeam l sid i = AssignResult.taken := by
      simp [assignTeam, hc, hl, hne]
    exact ⟨he, by rw [he]; rfl⟩
  · intro l sid i hc
    have he : assignTeam l sid i = AssignResult.completeRejected := by
      simp [assignTeam, hc]
    exact ⟨he, by rw [he]; rfl⟩

/-- C5 witness: socket `a` successfully claims the unclaimed slot 0 of
`lgC5` and becomes its recorded owner. -/
theorem c5_witness :
    assignTeam lgC5 "a" 0 =
      AssignResult.assigned { lgC5 with teamOwners := setOwner lgC5.teamOwners 0 "a" } 0 ∧
      lookupOwner (setOwner lgC5.teamOwners 0 "a") 0 = some "a" :=
  c5_claim_slot_contract.1 lgC5 "a" 0 rfl (Or.inl rfl)

/-- C6 counterexample: `start-draft` on the not-yet-started league `lgC6`
whose `availablePlayers` is empty leaves the pool empty — the handler
performs no re-seeding (re-seeding happens only in `join-draft`). -/
theorem c6_start_no_reseed_counterexample :
    lgC6.isDrafting = false ∧ lgC6.availablePlayers = [] ∧
      (startDraft lgC6).availablePlayers = [] := by
  exact ⟨rfl, rfl, by decide⟩

/-- C6 (amended: no re-seeding): `start-draft` is a no-op with no
broadcast when the league is already drafting; otherwise it sets
`isDrafting := true`, `currentTeamIndex := 0`, `snakeDirection := +1`,
`draftComplete := false`, re-initializes every team to empty, leaves
`availablePlayers` untouched, and broadcasts. -/
theorem c6_start_contract (l : League) :
    (l.isDrafting = true → startDraft l = l ∧ startBroadcast l = false) ∧
    (l.isDrafting = false →
      (startDraft l).isDrafting = true ∧
      (startDraft l).currentTeamIndex = 0 ∧
      (startDraft l).snakeDirection = 1 ∧
      (startDraft l).draftComplete = false ∧
      (startDraft l).teams = List.replicate l.teamNames.length [] ∧
      (startDraft l).availablePlayers = l.availablePlayers ∧
      startBroadcast l = true) := by
  constructor
  · intro h
    exact ⟨by simp [startDraft, h], by simp [startBroadcast, h]⟩
  · intro h
    simp [startDraft, startBroadcast, h]

/-- C6 witness: starting the not-yet-started league `lgC6` sets the
drafting flags, resets the turn and the teams, and leaves the player
pool as it was. -/
theorem c6_witness :
    (startDraft lgC6).isDrafting = true ∧
      (startDraft lgC6).currentTeamIndex = 0 ∧
      (startDraft lgC6).snakeDirection = 1 ∧
      (startDraft lgC6).draftComplete = false ∧
      (startDraft lgC6).teams = List.replicate lgC6.teamNames.length [] ∧
      (startDraft lgC6).availablePlayers = lgC6.availablePlayers ∧
      startBroadcast lgC6 = true :=
  (c6_start_contract lgC6).2 rfl

/-- C7 counterexample: `start-draft` on `lgC7` (not drafting, slot 0
owned by socket `s`) keeps the ownership entry, and the pre-start owner
immediately gets a pick accepted (broadcast emitted) without re-claiming
— the claimed ownership wipe does not happen. -/
theorem c7_ownership_wiped_counterexample :
    lgC7.isDrafting = false ∧
      lookupOwner (startDraft lgC7).teamOwners 0 = some "s" ∧
      pickBroadcast (draftPick (startDraft lgC7) "s" 0 (mkPlayer 1)) = true := by
  exact ⟨rfl, by decide, by decide⟩

/-- C7 (amended: no ownership wipe): `start-draft` leaves `teamOwners`
unchanged for every league, so ownership persists across a start; in
particular the pre-start owner of slot 0 of `lgC7` has a pick accepted
right after the start without claiming again. -/
theorem c7_start_keeps_owners :
    (∀ l : League, (startDraft l).teamOwners = l.teamOwners) ∧
      draftPick (startDraft lgC7) "s" 0 (mkPlayer 1)
        = PickResult.accepted (pickUpdate (startDraft lgC7) 0 (mkPlayer 1)) := by
  constructor
  · intro l
    by_cases h : l.isDrafting = true <;> simp [startDraft, h]
  · decide

/-- C8 counterexample: on the completed league `lgC8` the disconnect of
socket `s` removes its ownership entry — the claimed exemption of
completed leagues does not exist in the handler. -/
theorem c8_disconnect_revokes_completed_counterexample :
    lgC8.draftComplete = true ∧
      lookupOwner lgC8.teamOwners 0 = some "s" ∧
      lookupOwner (disconnectLeague lgC8 "s").teamOwners 0 = none := by
  exact ⟨rfl, by decide, by decide⟩

/-- C8 (amended: no completed-league exemption): disconnect removes
every slot owned by the session in every league of the store, including
leagues whose draft is complete, and it never mutates any league's
`teams` or `availablePlayers`. -/
theorem c8_disconnect_releases_all :
    (∀ (ls : List League) (sid : String),
      (disconnectAll ls sid).map League.teams = ls.map League.teams) ∧
    (∀ (ls : List League) (sid : String),
      (disconnectAll ls sid).map League.availablePlayers
        = ls.map League.availablePlayers) ∧
    (∀ (ls : List League) (sid : String) (l' : League), l' ∈ disconnectAll ls sid →
      ∀ i : Int, lookupOwner l'.teamOwners i ≠ some sid) := by
  refine ⟨?_, ?_, ?_⟩
  · intro ls sid
    induction ls with
    | nil => rfl
    | cons hd tl ih => simp [disconnectAll, disconnectLeague]
  · intro ls sid
    induction ls with
    | nil => rfl
    | cons hd tl ih => simp [disconnectAll, disconnectLeague]
  · intro ls sid l' hm i
    obtain ⟨a, -, rfl⟩ := List.mem_map.1 hm
    exact lookupOwner_removeSession sid i a.teamOwners

/-- C8 witness: after socket `s` disconnects from a store holding the
completed league `lgC8`, it no longer owns slot 0 of that league. -/
theorem c8_witness :
    lookupOwner (disconnectLeague lgC8 "s").teamOwners 0 ≠ some "s" :=
  c8_disconnect_releases_all.2.2 [lgC8] "s" (disconnectLeague lgC8 "s") (by decide) 0

/-- C9 counterexample: on `lgC9` it is team 0's turn, yet the pick by
the owner of slot 1 at slot 1 is accepted: the state changes and the
`draft-update` broadcast is emitted, contradicting the claimed silent
no-op for out-of-turn picks. -/
theorem c9_out_of_turn_pick_accepted_counterexample :
    lgC9.currentTeamIndex = 0 ∧
      lookupOwner lgC9.teamOwners 1 = some "s" ∧
      pickBroadcast (draftPick lgC9 "s" 1 (mkPlayer 1)) = true ∧
      pickState lgC9 (draftPick lgC9 "s" 1 (mkPlayer 1)) ≠ lgC9 := by
  exact ⟨rfl, by decide, by decide, by decide⟩

/-- C9 (amended: no turn-order validation): the pick handler never
compares the slot against `currentTeamIndex`; a pick by the recorded
owner of a slot that passes the drafting, availability and bounds guards
is accepted and broadcast even when the slot is not the current turn. -/
theorem c9_no_turn_validation (l : League) (sid : String) (ti : Int) (p : Player)
    (h1 : l.isDrafting = true) (h2 : l.draftComplete = false)
    (h3 : lookupOwner l.teamOwners ti = some sid)
    (h4 : playerAvailable l.availablePlayers p.id = true)
    (h5 : 0 ≤ ti) (h6 : ti < (l.teams.length : Int))
    (_h7 : ti ≠ l.currentTeamIndex) :
    draftPick l sid ti p = PickResult.accepted (pickUpdate l ti p) ∧
      pickBroadcast (draftPick l sid ti p) = true := by
  have he := pick_accepted_eq l sid ti p h1 h2 h3 h4 h5 h6
  exact ⟨he, by rw [he]; rfl⟩

/-- C9 witness: the out-of-turn pick at slot 1 of `lgC9` (whose turn is
slot 0) is accepted and broadcast. -/
theorem c9_witness :
    draftPick lgC9 "s" 1 (mkPlayer 1)
        = PickResult.accepted (pickUpdate lgC9 1 (mkPlayer 1)) ∧
      pickBroadcast (draftPick lgC9 "s" 1 (mkPlayer 1)) = true :=
  c9_no_turn_validation lgC9 "s" 1 (mkPlayer 1) rfl rfl (by decide) (by decide)
    (by decide) (by decide) (by decide)

/-- C10: `assign-team` performs no range validation, so on any
non-complete league an unclaimed slot index at or beyond the team count
is claimed successfully; a subsequent pick on such a slot passes every
guard and then dies in the `teams[teamIndex].push` mutation step, which
is total only for `0 <= slot < teams.length`; the concrete chain claim
slot 5 then pick on slot 5 of the two-team league `lgC10` reaches the
out-of-bounds error from the public interface. -/
theorem c10_unvalidated_slot_oob :
    (∀ (l : League) (sid : String) (i : Int),
      l.draftComplete = false → lookupOwner l.teamOwners i = none →
      (l.teams.length : Int) ≤ i →
      assignTeam l sid i =
        AssignResult.assigned { l with teamOwners := setOwner l.teamOwners i sid } i ∧
      lookupOwner (setOwner l.teamOwners i sid) i = some sid) ∧
    (∀ (l : League) (sid : String) (i : Int) (p : Player),
      l.isDrafting = true → l.draftComplete = false →
      lookupOwner l.teamOwners i = some sid →
      playerAvailable l.availablePlayers p.id = true →
      (i < 0 ∨ (l.teams.length : Int) ≤ i) →
      draftPick l sid i p = PickResult.typeError) ∧
    (assignTeam lgC10 "s" 5 = AssignResult.assigned lgC10b 5 ∧
      draftPick lgC10b "s" 5 (mkPlayer 1) = PickResult.typeError) := by
  refine ⟨?_, ?_, by decide, by decide⟩
  · intro l sid i hc hl _
    exact ⟨by simp [assignTeam, hc, hl], lookupOwner_setOwner_self l.teamOwners i sid⟩
  · intro l sid i p h1 h2 h3 h4 h5
    exact pick_typeError_eq l sid i p h1 h2 h3 h4 h5

/-- C10 witness: on `lgC10b`, where socket `s` owns the out-of-range
slot 5, the pick passes every guard and reaches the out-of-bounds
mutation error. -/
theorem c10_witness :
    draftPick lgC10b "s" 5 (mkPlayer 1) = PickResult.typeError :=
  c10_unvalidated_slot_oob.2.1 lgC10b "s" 5 (mkPlayer 1) rfl rfl (by decide) (by decide)
    (Or.inr (by decide))
